import Mathlib

/-!
Verification of the authenticated-proxy core of vite-dev-auth-plugin.

The repository ships two near-duplicate copies of the plugin:
  * a modular version (src/options.ts, src/cookieUtils.ts, src/proxyHandler.ts,
    src/iframeScript.ts, src/index.ts), and
  * an all-in-one version (the single-file index.ts).
We shallowly embed the parts relevant to the cookie store, the refresh
gating, the unauthenticated-response detector, the path matcher and the
outbound Cookie-header composition, and prove or refute the specified
properties over the embedding.

JavaScript strings are modelled as Lean strings; the handful of string
primitives the source uses (split on a one-character separator, trim,
startsWith, charAt, toLowerCase, Array.prototype.join) are given explicit
recursive models on the character list so that every definition is
executable and kernel-reducible.
-/

namespace ViteDevAuth

/-- Model of JS String.prototype.split with a one-character separator:
splits at every occurrence, keeping empty segments, and yields one
(possibly empty) segment even for the empty string. -/
def splitOnChar (c : Char) : List Char → List (List Char)
  | [] => [[]]
  | x :: xs =>
      match splitOnChar c xs with
      | [] => [[]]
      | h :: t => if x = c then [] :: h :: t else (x :: h) :: t

/-- JS split restricted to the one-character separators the source uses. -/
def jsSplit (c : Char) (s : String) : List String :=
  (splitOnChar c s.toList).map (fun l => String.mk l)

/-- Model of JS String.prototype.trim: drop leading and trailing whitespace. -/
def jsTrim (s : String) : String :=
  String.mk (((s.toList.dropWhile Char.isWhitespace).reverse.dropWhile
    Char.isWhitespace).reverse)

/-- Model of JS string indexing s[i]: the character at position i,
or none when the index is out of range (JS yields undefined). -/
def jsCharAt (s : String) (i : Nat) : Option Char := s.toList.get? i

/-- Model of JS String.prototype.startsWith. -/
def jsStartsWith (s pre : String) : Bool := pre.toList.isPrefixOf s.toList

/-- Model of JS substring containment (what a non-anchored regex literal
tests for). -/
def jsIncludes (s sub : String) : Bool := decide (sub.toList <:+: s.toList)

/-- Model of JS String.prototype.toLowerCase on the ASCII range. -/
def jsToLower (s : String) : String := String.mk (s.toList.map Char.toLower)

/-- Model of JS Array.prototype.join. -/
def jsJoin (sep : String) : List String → String
  | [] => ""
  | [x] => x
  | x :: y :: xs => x ++ sep ++ jsJoin sep (y :: xs)

/-!
## CookieStore

Both copies declare
  type CookieJar = Map<string, string>
and mutate it with jar.set.  A JS Map preserves insertion order and
Map.set overwrites in place when the key exists, else appends; the jar
is therefore modelled as an insertion-ordered association list.
-/

/-- The cookie jar: insertion-ordered name/value entries. -/
abbrev CookieJar := List (String × String)

/-- Model of Map.prototype.set: overwrite in place when the name is
present, append otherwise. -/
def jarSet (jar : CookieJar) (name value : String) : CookieJar :=
  if (jar.map Prod.fst).contains name then
    jar.map (fun e => if e.1 = name then (name, value) else e)
  else jar ++ [(name, value)]

/-- The raw argument of storeCookies: string | string[] | undefined. -/
inductive SetCookieInput where
  | absent
  | single (s : String)
  | multiple (ls : List String)
deriving DecidableEq

/-- Both copies begin with
      if (!raw) return;
      const lines = Array.isArray(raw) ? raw : [raw];
undefined and the empty string are falsy (early return), an array is
always truthy. -/
def toLines : SetCookieInput → List String
  | .absent => []
  | .single s => if s = "" then [] else [s]
  | .multiple ls => ls

namespace CookieUtils

/-!
Embedding of src/cookieUtils.ts (src/unnamed/part_003).

  export function storeCookies(jar, raw) {
    if (!raw) return;
    const lines = Array.isArray(raw) ? raw : [raw];
    lines.forEach((line) => {
      const [nv] = line.split(";");
      const [name, value] = nv.split("=");
      if (name) jar.set(name.trim(), value.trim());
    });
  }

When the first ";"-segment holds no "=", the destructured value is
undefined and value.trim() throws a TypeError, which aborts the forEach
and propagates out of storeCookies; the jar keeps every entry merged
before the throw.  mergeLine returns none for the throwing case.
-/

/-- One iteration of the forEach body; none models the TypeError thrown
by value.trim() when the segment has no "=". -/
def mergeLine (jar : CookieJar) (line : String) : Option CookieJar :=
  match jsSplit '=' ((jsSplit ';' line).headD "") with
  | [] => some jar
  | [name] => if name = "" then some jar else none
  | name :: value :: _ =>
      if name = "" then some jar
      else some (jarSet jar (jsTrim name) (jsTrim value))

/-- storeCookies of cookieUtils.ts: the resulting jar together with a
flag recording whether the merge threw (true = a TypeError escaped,
remaining lines unprocessed). -/
def storeCookies (jar : CookieJar) (raw : SetCookieInput) : CookieJar × Bool :=
  (toLines raw).foldl
    (fun acc line =>
      if acc.2 then acc
      else
        match mergeLine acc.1 line with
        | some j => (j, false)
        | none => (acc.1, true))
    (jar, false)

/-- jarToString of cookieUtils.ts: name=value pairs joined by "; " in
the jar enumeration (insertion) order. -/
def jarToString (jar : CookieJar) : String :=
  jsJoin "; " (jar.map (fun e => e.1 ++ "=" ++ e.2))

end CookieUtils

namespace IndexTs

/-!
Embedding of storeCookies from the all-in-one index.ts:

  const [pair] = line.split(";");
  const idx = pair.indexOf("=");
  if (idx > 0) {
    const name = pair.slice(0, idx).trim();
    const value = pair.slice(idx + 1).trim();
    jar.set(name, value);
  }

Splitting the pair on "=" exposes exactly the indexOf/slice data: the
head of the split is pair.slice(0, idx) (empty when idx is 0, the whole
pair when idx is -1, in which case the split has no further element),
and rejoining the tail with "=" is pair.slice(idx + 1). -/

/-- One iteration of the for-of body of index.ts storeCookies. -/
def mergeLine (jar : CookieJar) (line : String) : CookieJar :=
  match jsSplit '=' ((jsSplit ';' line).headD "") with
  | [] => jar
  | [_] => jar
  | name :: rest =>
      if name = "" then jar
      else jarSet jar (jsTrim name) (jsTrim (jsJoin "=" rest))

/-- storeCookies of the all-in-one index.ts; it guards with idx > 0 and
therefore never throws. -/
def storeCookies (jar : CookieJar) (raw : SetCookieInput) : CookieJar :=
  (toLines raw).foldl mergeLine jar

end IndexTs

/-!
## UnauthDetector

Default from normalizeOptions (both src/options.ts and the all-in-one
index.ts):

  (status, headers) =>
    status === 401 ||
    (status === 302 && /\/(login|sso)\//i.test(headers.location ?? ""))

The regex is unanchored and case-insensitive: it holds exactly when the
lower-cased Location value contains "/login/" or "/sso/" as a substring.
-/

/-- The response headers the default detector inspects. -/
structure RespHeaders where
  location : Option String

/-- Model of the regex test: /\/(login|sso)\//i.test(s). -/
def loginSsoRegexTest (s : String) : Bool :=
  jsIncludes (jsToLower s) "/login/" || jsIncludes (jsToLower s) "/sso/"

/-- The default unauthenticated-response detector of normalizeOptions. -/
def unauthDetector (status : Nat) (headers : RespHeaders) : Bool :=
  status == 401 || (status == 302 && loginSsoRegexTest (headers.location.getD ""))

/-!
## PathMatcher

filterFunction of src/proxyHandler.ts (same as filterFn of the
all-in-one index.ts):

  apiPaths.some((p) =>
    typeof p === "string"
      ? pathname.startsWith(p) &&
        (pathname.length === p.length || pathname[p.length] === "/")
      : p.test(pathname))

A RegExp rule is modelled as an opaque boolean test on the path.
-/

/-- One configured API path rule: a literal string or a RegExp. -/
inductive PathRule where
  | str (s : String)
  | regex (test : String → Bool)

/-- The per-rule check of filterFunction. -/
def ruleTest (pathname : String) : PathRule → Bool
  | .str p =>
      jsStartsWith pathname p &&
        (pathname.toList.length == p.toList.length
          || jsCharAt pathname p.toList.length == some '/')
  | .regex t => t pathname

/-- filterFunction / filterFn: true when some rule accepts the path. -/
def filterFn (apiPaths : List PathRule) (pathname : String) : Bool :=
  apiPaths.any (ruleTest pathname)

/-- The default apiPaths from normalizeOptions is the one-element list
holding the RegExp literal anchored at the start of the path:

  const apiPaths = opts.apiPaths || [/^\/api/];

which tests exactly "the path starts with /api". -/
def defaultApiPaths : List PathRule := [.regex (fun p => jsStartsWith p "/api")]

/-!
## Outbound Cookie-header composition (proxyReq handler)

  const existingCookies = proxyReq.getHeader("cookie");
  const pluginCookies = jarToString(jar);
  const combinedCookies = [existingCookies, pluginCookies]
    .filter(Boolean).join("; ");
  if (combinedCookies) proxyReq.setHeader("cookie", combinedCookies);

filter(Boolean) drops undefined and the empty string; the header is
overwritten exactly when the joined result is non-empty.  The returned
Option is the outbound Cookie header finally set (none = left untouched).
-/

/-- The proxyReq cookie composition of both proxy copies. -/
def composeCookieHeader (existing : Option String) (jar : CookieJar) : Option String :=
  let pluginCookies := CookieUtils.jarToString jar
  let parts := (match existing with | some e => [e] | none => []) ++ [pluginCookies]
  let combined := jsJoin "; " (parts.filter (fun s => s != ""))
  if combined = "" then none else some combined

/-!
## Refresh gating: the event-level model

The modular proxyHandler.ts keeps a module-level slot

  let refreshingPromise: Promise<void> | undefined;
  async function gateRefresh() { if (refreshingPromise) await refreshingPromise; }

and the all-in-one index.ts keeps the analogous module-level

  let globalRefresh: Promise<void> | undefined;
  async function gateRefresh() { if (globalRefresh) await globalRefresh; }

gateRefresh is what every proxied request awaits before composing its
Cookie header.  The reactive refresh triggered by an unauthenticated
response is stored in a different, closure-local slot:

  let activeRefreshPromise: Promise<void> | undefined;   // in createApiProxy
  ...
  activeRefreshPromise = doHeadlessLogin(...).finally(() => {
    activeRefreshPromise = undefined;
  });

In proxyHandler.ts the gate slot (refreshingPromise) is never assigned
anywhere in the repository; in the all-in-one index.ts it is assigned
only for the startup login.  The model below has one event per atomic
event-loop turn of the source:

  * startupRefresh r  : the gate slot is filled with refresh r
                        (globalRefresh = doHeadlessLogin(...) at startup);
  * reactiveRefresh r : the proxyRes handler starts refresh r and records
                        it in the closure slot only;
  * settle r          : refresh r settles and its finally handler clears
                        whichever slot still holds it;
  * reqBegin q        : request q enters the proxyReq handler; its
                        gateRefresh() call reads the gate slot and that
                        promise (or nothing) is all the request awaits;
  * reqCompose q      : request q resumes past gateRefresh() and composes
                        its Cookie header; enabled once everything the
                        request awaited has settled.
-/

/-- One atomic event of the refresh/request interleaving. -/
inductive Ev where
  | startupRefresh (r : Nat)
  | reactiveRefresh (r : Nat)
  | settle (r : Nat)
  | reqBegin (q : Nat)
  | reqCompose (q : Nat)
deriving DecidableEq

/-- The shared mutable state of the two plugin modules, as read and
written by the handlers. -/
structure TraceSt where
  gateSlot : Option Nat
  activeSlot : Option Nat
  running : List Nat
  settled : List Nat
  began : List (Nat × Option Nat)
  composed : List Nat
deriving DecidableEq

/-- Initial state: no refresh recorded anywhere, no request in flight. -/
def initSt : TraceSt := ⟨none, none, [], [], [], []⟩

/-- One step of the interleaving; none = the event is not enabled. -/
def step (s : TraceSt) : Ev → Option TraceSt
  | .startupRefresh r =>
      if s.running.contains r || s.settled.contains r || s.gateSlot.isSome then none
      else some { s with gateSlot := some r, running := s.running ++ [r] }
  | .reactiveRefresh r =>
      if s.running.contains r || s.settled.contains r || s.activeSlot.isSome then none
      else some { s with activeSlot := some r, running := s.running ++ [r] }
  | .settle r =>
      if s.running.contains r then
        some { gateSlot := if s.gateSlot = some r then none else s.gateSlot
               activeSlot := if s.activeSlot = some r then none else s.activeSlot
               running := s.running.erase r
               settled := s.settled ++ [r]
               began := s.began
               composed := s.composed }
      else none
  | .reqBegin q =>
      if (s.began.map Prod.fst).contains q then none
      else some { s with began := s.began ++ [(q, s.gateSlot)] }
  | .reqCompose q =>
      match s.began.find? (fun e => e.1 == q) with
      | none => none
      | some e =>
          if s.composed.contains q then none
          else
            match e.2 with
            | none => some { s with composed := s.composed ++ [q] }
            | some r =>
                if s.settled.contains r then
                  some { s with composed := s.composed ++ [q] }
                else none

/-- A trace is valid when every event is enabled in turn from the
initial state. -/
def validTrace (t : List Ev) : Bool :=
  (t.foldl (fun acc e => acc.bind (fun s => step s e)) (some initSt)).isSome

/-- Position of the first occurrence of an event in a trace (trace
length when absent). -/
def evIdx (t : List Ev) (e : Ev) : Nat := (t.findIdx? (fun x => x = e)).getD t.length

/-- The ordering demanded by the specification, instantiated at one
refresh-trigger event, its refresh id r and one request q: if r is
triggered before q begins and settles only after q begins (so the
refresh is in flight when the request starts waiting), then q composes
its cookies only after r settles. -/
def composeWaitedFor (t : List Ev) (trig : Ev) (r q : Nat) : Bool :=
  !(decide (evIdx t trig < evIdx t (.reqBegin q))
    && decide (evIdx t (.reqBegin q) < evIdx t (.settle r))
    && decide (evIdx t (.reqCompose q) < evIdx t (.settle r)))

/-!
## Singleflight model of the reactive refresh (proxyRes handler)

  if (unauthDetector(proxyRes.statusCode ?? 0, proxyRes.headers)) {
    if (!activeRefreshPromise) {
      log(...);
      activeRefreshPromise = doHeadlessLogin(...).finally(() => {
        activeRefreshPromise = undefined;
      });
    }
  }

Each proxyRes handler runs atomically on the event loop (no await
between the test and the assignment), so a burst of unauthenticated
responses is a sequence of these atomic steps.
-/

/-- The closure state of createApiProxy: the recorded refresh handle and
the ids of the doHeadlessLogin invocations started so far, in order. -/
structure GateSt where
  activeSlot : Option Nat
  started : List Nat
deriving DecidableEq

/-- One atomic proxyRes handler run: rid is the id the refresh would get
were it started by this response. -/
def proxyResStep (s : GateSt) (unauth : Bool) (rid : Nat) : GateSt :=
  if unauth then
    match s.activeSlot with
    | some _ => s
    | none => { activeSlot := some rid, started := s.started ++ [rid] }
  else s

/-- The finally handler of the recorded refresh: when invocation rid
settles - with either outcome - the slot is cleared. -/
def settleRefresh (s : GateSt) (rid : Nat) (_success : Bool) : GateSt :=
  if s.activeSlot = some rid then { s with activeSlot := none } else s

/-- A burst of n unauthenticated responses processed back to back, the
k-th of them carrying candidate refresh id k. -/
def unauthBurst (s : GateSt) (k : Nat) : Nat → GateSt
  | 0 => s
  | n + 1 => unauthBurst (proxyResStep s true k) (k + 1) n

/-!
## CredentialRefresher (doHeadlessLogin of proxyHandler.ts)

  if (!headlessLogin) return;
  try {
    const res = await axios({ ... });
    storeCookies(jar, res.headers["set-cookie"]);
    log(`headless login (label) succeeded`);
  } catch (e) { ... log(`headless login (label) failed: ...`); }

The axios call is the external transport: it either yields a response
(whose set-cookie headers are all the core reads) or rejects with a
message; axios rejects on any transport error and on every non-2xx
status.  Everything thrown inside the try block - including the
TypeError that cookieUtils storeCookies raises on a malformed entry -
is caught and logged, so the function itself always completes.
-/

/-- The observable outcome of one doHeadlessLogin call: which log line
ran.  failure means the catch block executed. -/
inductive LoginOutcome where
  | success
  | failure (msg : String)
deriving DecidableEq

/-- doHeadlessLogin of proxyHandler.ts over its embedded state: the jar
and the outcome of the attempt.  axiosResult is the settled result of
the outbound validation request. -/
def doHeadlessLogin (jar : CookieJar) (headlessLogin : Bool)
    (axiosResult : Except String SetCookieInput) : CookieJar × LoginOutcome :=
  if !headlessLogin then (jar, .success)
  else
    match axiosResult with
    | .error msg => (jar, .failure msg)
    | .ok setCookie =>
        match CookieUtils.storeCookies jar setCookie with
        | (jar2, false) => (jar2, .success)
        | (jar2, true) => (jar2, .failure "TypeError: value is undefined")

end ViteDevAuth

namespace ViteDevAuth

example : CookieUtils.storeCookies [] (.multiple ["bad-entry-no-equals", "a=1"]) = ([], true) := by
  decide

example : IndexTs.storeCookies [] (.multiple ["bad-entry-no-equals", "a=1"]) = [("a", "1")] := by
  decide

example : IndexTs.storeCookies [] (.single "a=1=2") = [("a", "1=2")] := by decide

example : CookieUtils.storeCookies [] (.single "a=1=2") = ([("a", "1")], false) := by decide

example : IndexTs.storeCookies [("a", "1")] (.single "a=2") = [("a", "2")] := by decide

example : CookieUtils.jarToString [("a", "1"), ("b", "2")] = "a=1; b=2" := by decide

example : unauthDetector 401 ⟨none⟩ = true := by decide
example : unauthDetector 302 ⟨some "/sso/callback"⟩ = true := by decide
example : unauthDetector 302 ⟨some "/other"⟩ = false := by decide
example : unauthDetector 200 ⟨none⟩ = false := by decide
example : unauthDetector 302 ⟨some "/LOGIN/next"⟩ = true := by decide

example : filterFn [.str "/api"] "/api" = true := by decide
example : filterFn [.str "/api"] "/api/users" = true := by decide
example : filterFn [.str "/api"] "/apikey" = false := by decide
example : filterFn defaultApiPaths "/apikey" = true := by decide

example : composeCookieHeader (some "c=3") [("a", "1"), ("b", "2")] = some "c=3; a=1; b=2" := by
  decide
example : composeCookieHeader none [] = none := by decide
example : composeCookieHeader (some "") [] = none := by decide

example :
    validTrace [.reactiveRefresh 0, .reqBegin 1, .reqCompose 1, .settle 0] = true := by decide

example :
    composeWaitedFor [.reactiveRefresh 0, .reqBegin 1, .reqCompose 1, .settle 0]
      (.reactiveRefresh 0) 0 1 = false := by decide

example : unauthBurst ⟨none, []⟩ 0 3 = ⟨some 0, [0]⟩ := by decide

example :
    doHeadlessLogin [] true (.ok (.multiple ["a=1", "bad"]))
      = ([("a", "1")], .failure "TypeError: value is undefined") := by decide

/-!
## Supporting lemmas
-/

/-- Overwriting a value in place never changes the key in any entry. -/
theorem map_fst_overwrite (n v : String) :
    ∀ jar : CookieJar,
      List.map (Prod.fst ∘ fun e => if e.1 = n then (n, v) else e) jar
        = List.map Prod.fst jar
  | [] => rfl
  | e :: es => by
      simp only [List.map_cons, Function.comp_apply, map_fst_overwrite n v es]
      by_cases he : e.1 = n
      · simp [he]
      · simp [he]

/-- The key list of the jar after a set: unchanged when the name was
present, extended by the name otherwise. -/
theorem jarSet_map_fst (jar : CookieJar) (n v : String) :
    (jarSet jar n v).map Prod.fst =
      if (jar.map Prod.fst).contains n then jar.map Prod.fst
      else jar.map Prod.fst ++ [n] := by
  unfold jarSet
  split
  · rw [List.map_map, map_fst_overwrite]
  · rw [List.map_append]; rfl

/-- Map.set preserves key uniqueness. -/
theorem jarSet_keys_nodup (jar : CookieJar) (n v : String)
    (h : (jar.map Prod.fst).Nodup) : ((jarSet jar n v).map Prod.fst).Nodup := by
  rw [jarSet_map_fst]
  split
  · exact h
  · next hc =>
      refine List.Nodup.append h (List.nodup_singleton n) ?_
      rw [List.disjoint_singleton]
      intro hmem
      exact hc (by simpa [List.contains, List.elem_iff] using hmem)

/-- One line of the index.ts merge preserves key uniqueness. -/
theorem IndexTs.mergeLine_keys_nodup (jar : CookieJar) (line : String)
    (h : (jar.map Prod.fst).Nodup) :
    ((IndexTs.mergeLine jar line).map Prod.fst).Nodup := by
  unfold IndexTs.mergeLine
  split
  · exact h
  · exact h
  · split
    · exact h
    · exact jarSet_keys_nodup _ _ _ h

/-- The whole index.ts merge preserves key uniqueness. -/
theorem IndexTs.storeCookies_keys_nodup (jar : CookieJar) (raw : SetCookieInput)
    (h : (jar.map Prod.fst).Nodup) :
    ((IndexTs.storeCookies jar raw).map Prod.fst).Nodup := by
  unfold IndexTs.storeCookies
  generalize toLines raw = lines
  induction lines generalizing jar with
  | nil => exact h
  | cons l ls ih => exact ih _ (IndexTs.mergeLine_keys_nodup _ _ h)

/-- A well-formed Set-Cookie line for the purposes of comparing the two
storeCookies copies: its first ";"-segment is either skipped by both
copies (empty name) or holds exactly one "=". -/
def goodLine (line : String) : Bool :=
  match jsSplit '=' ((jsSplit ';' line).headD "") with
  | [name] => name == ""
  | [_, _] => true
  | _ => false

/-- On a well-formed line the cookieUtils merge step completes without
throwing and agrees with the index.ts merge step. -/
theorem mergeLine_agree (jar : CookieJar) (line : String)
    (h : goodLine line = true) :
    CookieUtils.mergeLine jar line = some (IndexTs.mergeLine jar line) := by
  unfold goodLine at h
  unfold CookieUtils.mergeLine IndexTs.mergeLine
  cases hs : jsSplit '=' ((jsSplit ';' line).headD "") with
  | nil => rfl
  | cons a t =>
      cases t with
      | nil =>
          rw [hs] at h
          simp only [beq_iff_eq] at h
          simp [h]
      | cons b t2 =>
          cases t2 with
          | nil =>
              by_cases ha : a = ""
              · simp [ha]
              · simp [ha, jsJoin]
          | cons c t3 => rw [hs] at h; exact absurd h (by simp)

/-- On inputs made only of well-formed lines the two storeCookies copies
are extensionally equal and the cookieUtils copy never throws. -/
theorem storeCookies_agree (jar : CookieJar) (raw : SetCookieInput)
    (h : ∀ line ∈ toLines raw, goodLine line = true) :
    CookieUtils.storeCookies jar raw = (IndexTs.storeCookies jar raw, false) := by
  unfold CookieUtils.storeCookies IndexTs.storeCookies
  revert h
  generalize toLines raw = lines
  induction lines generalizing jar with
  | nil => intro _; rfl
  | cons l ls ih =>
      intro h
      have hl : goodLine l = true := h l (List.mem_cons_self l ls)
      simp only [List.foldl_cons, Bool.false_eq_true, if_false,
        mergeLine_agree jar l hl]
      exact ih (IndexTs.mergeLine jar l) (fun x hx => h x (List.mem_cons_of_mem l hx))

/-- The specification-side reading of the default detector condition on
the Location header: the lower-cased value contains the string /login/
or the string /sso/. -/
def LocationIndicatesLogin (loc : String) : Prop :=
  "/login/".toList <:+: (jsToLower loc).toList
    ∨ "/sso/".toList <:+: (jsToLower loc).toList

/-- The specification-side reading of one path rule: a literal rule
requires the path to start with it and the character immediately after
the prefix to be absent or a slash; a RegExp rule requires its test to
accept the path. -/
def SpecRuleMatches (path : String) : PathRule → Prop
  | .str p =>
      p.toList <+: path.toList
        ∧ (path.toList.get? p.toList.length = none
            ∨ path.toList.get? p.toList.length = some '/')
  | .regex t => t path = true

/-- The per-rule boolean check agrees with its specification reading. -/
theorem ruleTest_iff (path : String) (r : PathRule) :
    ruleTest path r = true ↔ SpecRuleMatches path r := by
  cases r with
  | regex t => exact Iff.rfl
  | str p =>
      unfold ruleTest SpecRuleMatches jsStartsWith jsCharAt
      simp only [Bool.and_eq_true, Bool.or_eq_true, beq_iff_eq,
        List.isPrefixOf_iff_prefix]
      constructor
      · rintro ⟨hpre, hlen | hch⟩
        · refine ⟨hpre, Or.inl ?_⟩
          rw [List.get?_eq_none, hlen]
        · exact ⟨hpre, Or.inr hch⟩
      · rintro ⟨hpre, hnone | hch⟩
        · refine ⟨hpre, Or.inl ?_⟩
          have h1 := List.get?_eq_none.mp hnone
          have h2 := hpre.length_le
          omega
        · exact ⟨hpre, Or.inr hch⟩

/-- Once a refresh is recorded in the closure slot, further
unauthenticated responses never start another one. -/
theorem unauthBurst_saturated (n : Nat) :
    ∀ (k r : Nat) (l : List Nat), unauthBurst ⟨some r, l⟩ k n = ⟨some r, l⟩ := by
  induction n with
  | zero => intro k r l; rfl
  | succ m ih => intro k r l; exact ih (k + 1) r l

/-- A string whose character list is nonempty is not the empty string. -/
theorem ne_empty_of_toList_ne_nil {s : String} (h : s.toList ≠ []) : s ≠ "" := by
  intro he; exact h (by rw [he]; rfl)

/-- Appending cannot erase a nonempty left part. -/
theorem append_ne_empty_left {a : String} (b : String) (h : a ≠ "") : a ++ b ≠ "" := by
  refine ne_empty_of_toList_ne_nil ?_
  have ha : a.data ≠ [] := fun hd => h (by cases a; simp_all)
  show (a ++ b).data ≠ []
  rw [String.data_append]
  simp [ha]

/-!
## Claim theorems
-/

/-- C1: the specification claims that a proxied request whose outbound
path begins while a credential refresh is in progress composes its
Cookie header only after that refresh settles, for the startup refresh
and the reactive refresh alike.  The code violates this for the
reactive refresh: gateRefresh awaits only the module-level slot
(refreshingPromise in proxyHandler.ts - never assigned anywhere - and
globalRefresh in the all-in-one index.ts - assigned only at startup),
while the reactive refresh is recorded solely in the closure slot
activeRefreshPromise, which gateRefresh never reads.  The interleaving
below, in which a request begins and composes its cookies while the
reactive refresh is still running, is therefore a valid trace of the
embedded semantics, and it violates the claimed ordering. -/
theorem C1_reactive_refresh_not_awaited :
    validTrace [.reactiveRefresh 0, .reqBegin 1, .reqCompose 1, .settle 0] = true
      ∧ composeWaitedFor [.reactiveRefresh 0, .reqBegin 1, .reqCompose 1, .settle 0]
          (.reactiveRefresh 0) 0 1 = false := by
  decide

/-- C2: a burst of n >= 2 unauthenticated responses processed while the
reactive slot is idle starts exactly one doHeadlessLogin invocation
(the first response wins the test-and-set; each handler runs atomically
on the event loop); the slot holds that single shared handle for the
whole burst, and once the invocation settles - with either outcome -
the slot is idle again with still exactly that one invocation started. -/
theorem C2_singleflight_refresh (n : Nat) (hn : 2 ≤ n) :
    unauthBurst ⟨none, []⟩ 0 n = ⟨some 0, [0]⟩
      ∧ ∀ success, settleRefresh (unauthBurst ⟨none, []⟩ 0 n) 0 success = ⟨none, [0]⟩ := by
  obtain ⟨m, rfl⟩ : ∃ m, n = m + 1 := ⟨n - 1, by omega⟩
  have hb : unauthBurst ⟨none, []⟩ 0 (m + 1) = ⟨some 0, [0]⟩ :=
    unauthBurst_saturated m 1 0 [0]
  exact ⟨hb, fun success => by rw [hb]; rfl⟩

/-- Witness for C2 at the concrete burst size 2. -/
theorem C2_singleflight_refresh_witness :
    2 ≤ 2
      ∧ unauthBurst ⟨none, []⟩ 0 2 = ⟨some 0, [0]⟩
      ∧ settleRefresh (unauthBurst ⟨none, []⟩ 0 2) 0 false = ⟨none, [0]⟩ :=
  ⟨by decide, (C2_singleflight_refresh 2 (by decide)).1,
    (C2_singleflight_refresh 2 (by decide)).2 false⟩

/-- C3: the specification claims a Set-Cookie entry whose first
";"-segment has no "=" is silently skipped (no exception) and the
remaining entries still merge.  The cookieUtils copy instead throws a
TypeError on such an entry (the destructured value is undefined) and
aborts the merge, so nothing at all is merged from the list; the
all-in-one index.ts copy behaves exactly as specified on the same
input, which shows the specified behaviour is the intended one. -/
theorem C3_malformed_entry_throws :
    CookieUtils.storeCookies [] (.multiple ["bad-entry-no-equals", "a=1"]) = ([], true)
      ∧ IndexTs.storeCookies [] (.multiple ["bad-entry-no-equals", "a=1"]) = [("a", "1")] := by
  decide

/-- C4: merging is last-write-wins per cookie name: the merge preserves
key uniqueness (each name maps to exactly one value), merging a=1 twice
leaves exactly the single entry a=1, and merging a=1 then a=2 leaves
exactly the single entry a=2; the concrete equations hold for both
copies of storeCookies. -/
theorem C4_last_write_wins :
    (∀ (jar : CookieJar) (raw : SetCookieInput),
        (jar.map Prod.fst).Nodup → ((IndexTs.storeCookies jar raw).map Prod.fst).Nodup)
      ∧ IndexTs.storeCookies [] (.single "a=1") = [("a", "1")]
      ∧ IndexTs.storeCookies [("a", "1")] (.single "a=1") = [("a", "1")]
      ∧ IndexTs.storeCookies [("a", "1")] (.single "a=2") = [("a", "2")]
      ∧ CookieUtils.storeCookies [] (.single "a=1") = ([("a", "1")], false)
      ∧ CookieUtils.storeCookies [("a", "1")] (.single "a=1") = ([("a", "1")], false)
      ∧ CookieUtils.storeCookies [("a", "1")] (.single "a=2") = ([("a", "2")], false) :=
  ⟨IndexTs.storeCookies_keys_nodup, by decide, by decide, by decide, by decide,
    by decide, by decide⟩

/-- Witness for C4 on a concrete jar with distinct keys. -/
theorem C4_last_write_wins_witness :
    (([("b", "7")] : CookieJar).map Prod.fst).Nodup
      ∧ ((IndexTs.storeCookies [("b", "7")] (.single "a=1")).map Prod.fst).Nodup :=
  ⟨by decide, C4_last_write_wins.1 [("b", "7")] (.single "a=1") (by decide)⟩

/-- C5: the default unauthenticated-response detector returns true
exactly for status 401, or status 302 with a Location header that
case-insensitively contains /login/ or /sso/; together with the four
concrete cases named by the specification. -/
theorem C5_default_unauth_detector :
    (∀ (status : Nat) (h : RespHeaders),
        unauthDetector status h = true
          ↔ status = 401 ∨ (status = 302 ∧ LocationIndicatesLogin (h.location.getD "")))
      ∧ unauthDetector 401 ⟨none⟩ = true
      ∧ unauthDetector 302 ⟨some "/sso/callback"⟩ = true
      ∧ unauthDetector 302 ⟨some "/other"⟩ = false
      ∧ unauthDetector 200 ⟨none⟩ = false := by
  refine ⟨fun status h => ?_, by decide, by decide, by decide, by decide⟩
  unfold unauthDetector loginSsoRegexTest jsIncludes LocationIndicatesLogin
  simp [Bool.or_eq_true, Bool.and_eq_true, beq_iff_eq, decide_eq_true_eq]

/-- C6: the path matcher accepts a path exactly when some rule matches,
a literal rule matching exactly when the path extends it at a path
boundary and a RegExp rule exactly when its test accepts the path; with
the three concrete cases for the rule /api. -/
theorem C6_path_matcher :
    (∀ (path : String) (rules : List PathRule),
        filterFn rules path = true ↔ ∃ r ∈ rules, SpecRuleMatches path r)
      ∧ filterFn [.str "/api"] "/api" = true
      ∧ filterFn [.str "/api"] "/api/users" = true
      ∧ filterFn [.str "/api"] "/apikey" = false := by
  refine ⟨fun path rules => ?_, by decide, by decide, by decide⟩
  unfold filterFn
  rw [List.any_eq_true]
  constructor
  · rintro ⟨r, hr, ht⟩; exact ⟨r, hr, (ruleTest_iff path r).mp ht⟩
  · rintro ⟨r, hr, hs⟩; exact ⟨r, hr, (ruleTest_iff path r).mpr hs⟩

/-- C7 counterexample: the default apiPaths value is the RegExp
anchored at /api, not the literal rule, so /apikey is proxied under the
default configuration even though it is neither /api itself nor an
extension at a path boundary - refuting the claimed default-match
condition. -/
theorem C7_default_counterexample :
    filterFn defaultApiPaths "/apikey" = true
      ∧ ("/apikey" : String) ≠ "/api"
      ∧ jsStartsWith "/apikey" "/api/" = false := by
  decide

/-- C7 amended: with no apiPaths configured, the default rule is the
start-anchored pattern on /api, and a request path is proxied by
default exactly when it starts with the four characters /api - which
covers /api and /api/users but also /apikey. -/
theorem C7_default_api_prefix :
    (∀ path : String,
        filterFn defaultApiPaths path = true ↔ "/api".toList <+: path.toList)
      ∧ filterFn defaultApiPaths "/api" = true
      ∧ filterFn defaultApiPaths "/api/users" = true
      ∧ filterFn defaultApiPaths "/apikey" = true := by
  refine ⟨fun path => ?_, by decide, by decide, by decide⟩
  simp [filterFn, defaultApiPaths, ruleTest, jsStartsWith, List.isPrefixOf_iff_prefix]

/-- C8: the outbound Cookie header is the existing request header and
the rendered jar joined by "; " with empty parts skipped; the header is
set exactly when the joined result is non-empty; and on the store a↦1,
b↦2 with existing header c=3 it consists of exactly the three pairs
joined by "; ", with pairwise distinct names. -/
theorem C8_cookie_header_composition :
    (∀ (e : String) (jar : CookieJar), e ≠ "" → CookieUtils.jarToString jar ≠ "" →
        composeCookieHeader (some e) jar
          = some (e ++ "; " ++ CookieUtils.jarToString jar))
      ∧ (∀ jar : CookieJar, CookieUtils.jarToString jar ≠ "" →
          composeCookieHeader none jar = some (CookieUtils.jarToString jar))
      ∧ (∀ e : String, e ≠ "" → composeCookieHeader (some e) [] = some e)
      ∧ composeCookieHeader none [] = none
      ∧ composeCookieHeader (some "") [] = none
      ∧ composeCookieHeader (some "c=3") [("a", "1"), ("b", "2")] = some "c=3; a=1; b=2"
      ∧ "c=3; a=1; b=2" = jsJoin "; " ["c=3", "a=1", "b=2"]
      ∧ (["c", "a", "b"] : List String).Nodup := by
  refine ⟨?_, ?_, ?_, by decide, by decide, by decide, by decide, by decide⟩
  · intro e jar he hj
    have hne : e ++ "; " ++ CookieUtils.jarToString jar ≠ "" :=
      append_ne_empty_left _ (append_ne_empty_left _ he)
    simp [composeCookieHeader, he, hj, jsJoin, hne]
  · intro jar hj
    simp [composeCookieHeader, hj, jsJoin]
  · intro e he
    have h0 : CookieUtils.jarToString [] = "" := rfl
    simp [composeCookieHeader, he, h0, jsJoin]

/-- Witness for C8 with the concrete store and header of the claim. -/
theorem C8_cookie_header_composition_witness :
    ("c=3" : String) ≠ ""
      ∧ CookieUtils.jarToString [("a", "1"), ("b", "2")] ≠ ""
      ∧ composeCookieHeader (some "c=3") [("a", "1"), ("b", "2")]
          = some ("c=3" ++ "; " ++ CookieUtils.jarToString [("a", "1"), ("b", "2")]) :=
  ⟨by decide, by decide,
    C8_cookie_header_composition.1 "c=3" [("a", "1"), ("b", "2")] (by decide) (by decide)⟩

/-- C9: doHeadlessLogin always completes - a transport or non-2xx
failure is reported as a logged failure with the jar untouched, and
everything thrown inside the try block is caught - but the further
claim that every failed attempt leaves the CookieStore unchanged is
violated: when the validation response carries a valid cookie followed
by a malformed one, the cookieUtils merge throws after storing the
first entry, the attempt is logged as failed, and a=1 stays in the jar. -/
theorem C9_failed_refresh_can_modify_jar :
    (∀ (jar : CookieJar) (msg : String),
        doHeadlessLogin jar true (.error msg) = (jar, .failure msg))
      ∧ doHeadlessLogin [] true (.ok (.multiple ["a=1", "bad"]))
          = ([("a", "1")], .failure "TypeError: value is undefined") :=
  ⟨fun _ _ => rfl, by decide⟩

/-- C10 counterexample: on the single header a=1=2 (a value containing
an equals sign) the all-in-one index.ts copy keeps the full remainder
1=2 while the cookieUtils copy keeps only 1; and on an entry without
any equals sign the cookieUtils copy throws while the index.ts copy
skips: the two copies are not extensionally equal. -/
theorem C10_copies_diverge :
    IndexTs.storeCookies [] (.single "a=1=2") = [("a", "1=2")]
      ∧ CookieUtils.storeCookies [] (.single "a=1=2") = ([("a", "1")], false)
      ∧ ([("a", "1=2")] : CookieJar) ≠ [("a", "1")]
      ∧ CookieUtils.storeCookies [] (.single "bad") = ([], true)
      ∧ IndexTs.storeCookies [] (.single "bad") = [] := by
  decide

/-- C10 amended: the two storeCookies copies agree - and the
cookieUtils copy completes without throwing - on every starting jar and
every raw input all of whose entries have a first ";"-segment that is
either skipped by both copies or holds exactly one "=". -/
theorem C10_copies_agree_on_good_lines (jar : CookieJar) (raw : SetCookieInput)
    (h : ∀ line ∈ toLines raw, goodLine line = true) :
    CookieUtils.storeCookies jar raw = (IndexTs.storeCookies jar raw, false) :=
  storeCookies_agree jar raw h

/-- Witness for C10 on a concrete two-header input with attributes. -/
theorem C10_copies_agree_witness :
    (goodLine "session=abc; Path=/; HttpOnly" = true ∧ goodLine "token=zzz" = true)
      ∧ CookieUtils.storeCookies [("old", "1")]
            (.multiple ["session=abc; Path=/; HttpOnly", "token=zzz"])
          = (IndexTs.storeCookies [("old", "1")]
              (.multiple ["session=abc; Path=/; HttpOnly", "token=zzz"]), false) :=
  ⟨⟨by decide, by decide⟩,
    C10_copies_agree_on_good_lines [("old", "1")]
      (.multiple ["session=abc; Path=/; HttpOnly", "token=zzz"]) (by decide)⟩

end ViteDevAuth
